import Mathlib

/-!
Verification of the geolocation service core against its specification.
The definitions below are a shallow embedding of `src/app.py`: the
coordinate validator, the sliding-window rate limiter, the error-log
sink, the statistics query, the health check, and the save_location
request pipeline. Machine floats are modelled by rationals together
with explicit NaN and infinity values; fallible store operations take
an explicit success oracle.
-/

namespace Geo

/-- Result of Python float() on a raw input value: a finite value
(modelled as a rational) or one of the special values NaN, +inf, -inf. -/
inductive FloatVal where
  | fin (q : ℚ)
  | nan
  | inf
  | negInf
deriving DecidableEq

/-- Raw request input for a coordinate field, as the handler may receive
it: a value float() parses to a finite number (numbers, booleans and
numeric strings), a value parsing to NaN or to an infinity (such as the
strings nan and inf), a non-numeric string (float raises ValueError),
or Python None (float raises TypeError). -/
inductive RawInput where
  | num (q : ℚ)
  | nanLit
  | infLit
  | negInfLit
  | nonNumeric
  | pyNone
deriving DecidableEq

/-- Python float(x); Option.none models the ValueError and TypeError
raised on non-numeric strings and on None. -/
def pyFloat : RawInput → Option FloatVal
  | .num q => Option.some (.fin q)
  | .nanLit => Option.some .nan
  | .infLit => Option.some .inf
  | .negInfLit => Option.some .negInf
  | .nonNumeric => Option.none
  | .pyNone => Option.none

/-- The chained comparison lo <= x <= hi on float values with rational
bounds: every comparison involving NaN is false, +inf fails the upper
bound and -inf fails the lower bound. -/
def floatInRange (lo hi : ℚ) : FloatVal → Bool
  | .fin q => decide (lo ≤ q ∧ q ≤ hi)
  | .nan => false
  | .inf => false
  | .negInf => false

/-- Kind of warning message validate_coordinates logs on each of its
three rejection paths (bad latitude range, bad longitude range,
conversion failure). -/
inductive WarnKind where
  | badLatitude
  | badLongitude
  | conversionError
deriving DecidableEq

/-- Return value of validate_coordinates together with the warnings it
logs on the way. -/
structure ValidateOut where
  result : Option (FloatVal × FloatVal)
  warnings : List WarnKind
deriving DecidableEq

/-- validate_coordinates from src/app.py: convert both inputs with
float(), returning None on ValueError or TypeError after logging a
conversion warning; then require -90 <= lat <= 90 and
-180 <= lon <= 180, logging which bound failed and returning None on a
violation; otherwise return the parsed pair. -/
def validate_coordinates (latitude longitude : RawInput) : ValidateOut :=
  match pyFloat latitude, pyFloat longitude with
  | Option.some lat, Option.some lon =>
    if !floatInRange (-90) 90 lat then ⟨Option.none, [.badLatitude]⟩
    else if !floatInRange (-180) 180 lon then ⟨Option.none, [.badLongitude]⟩
    else ⟨Option.some (lat, lon), []⟩
  | _, _ => ⟨Option.none, [.conversionError]⟩

/-- The specification's description of the validator's returned value:
accept, and return the identical numeric pair, exactly when both inputs
parse to finite numbers with latitude in [-90, 90] and longitude in
[-180, 180]; reject every other input. -/
def validatorSpec (latitude longitude : RawInput) : Option (FloatVal × FloatVal) :=
  match latitude, longitude with
  | .num a, .num b =>
    if -90 ≤ a ∧ a ≤ 90 ∧ -180 ≤ b ∧ b ≤ 180 then
      Option.some (.fin a, .fin b)
    else
      Option.none
  | _, _ => Option.none

/-- C1: validate_coordinates accepts and returns the identical numeric
pair exactly when both inputs parse to finite floating-point numbers
with latitude in [-90, 90] and longitude in [-180, 180] (bounds
inclusive); every other input, including non-numeric strings, None,
out-of-range values, NaN and infinities, is rejected with None. -/
theorem validator_accepts_iff_finite_in_range (latitude longitude : RawInput) :
    (validate_coordinates latitude longitude).result = validatorSpec latitude longitude := by
  cases latitude <;> cases longitude <;>
    simp only [validate_coordinates, validatorSpec, pyFloat, floatInRange]
  case num.num a b =>
    by_cases h1 : (-90 : ℚ) ≤ a ∧ a ≤ 90 <;>
      by_cases h2 : (-180 : ℚ) ≤ b ∧ b ≤ 180 <;>
        simp [h1, h2, and_assoc]
  all_goals first | rfl | (split <;> rfl)

/-- C3 counterexample: the claim that for some pair of distinct invalid
inputs the validator's rejection results differ is false: every
rejection returns the same undistinguished None. -/
theorem validator_rejections_identical :
    ¬ ∃ la1 lo1 la2 lo2 : RawInput,
        (validate_coordinates la1 lo1).result = Option.none ∧
        (validate_coordinates la2 lo2).result = Option.none ∧
        (validate_coordinates la1 lo1).result ≠ (validate_coordinates la2 lo2).result := by
  rintro ⟨la1, lo1, la2, lo2, h1, h2, hne⟩
  exact hne (h1.trans h2.symm)

/-- C3 amended: every rejection returns the same None to the caller; the
reason distinguishing the failure appears only in the warning log,
where an unparsable input, an out-of-range latitude and an out-of-range
longitude each log a different warning. -/
theorem validator_rejection_reasons_in_log :
    (validate_coordinates .nonNumeric (.num 0)).result = Option.none ∧
    (validate_coordinates (.num 999) (.num 0)).result = Option.none ∧
    (validate_coordinates (.num 0) (.num 999)).result = Option.none ∧
    (validate_coordinates .nonNumeric (.num 0)).warnings = [WarnKind.conversionError] ∧
    (validate_coordinates (.num 999) (.num 0)).warnings = [WarnKind.badLatitude] ∧
    (validate_coordinates (.num 0) (.num 999)).warnings = [WarnKind.badLongitude] := by
  decide

/-- Rate limiter configuration: the max_requests and window arguments of
the rate_limit decorator. -/
structure RateLimiter where
  max_requests : ℕ
  window : ℚ

/-- The requests dictionary captured by the rate_limit decorator, mapping
a client key to its stored request timestamps (a key never seen maps to
the empty list, as requests.get(client_ip, []) does). -/
def RLState : Type := String → List ℚ

/-- The initial, empty requests dictionary. -/
def rlEmpty : RLState := fun _ => []

/-- The cleanup step of rate_limit: keep exactly the stored timestamps t
with current_time - t < window. -/
def prune (window now : ℚ) (ts : List ℚ) : List ℚ :=
  ts.filter fun t => decide (now - t < window)

/-- One call of the rate_limit decorator for a client key at time now:
prune the key's stored timestamps and store the pruned list; if its
length has reached max_requests, reject; otherwise append now and
admit. -/
def allow (rl : RateLimiter) (s : RLState) (key : String) (now : ℚ) :
    Bool × RLState :=
  let pruned := prune rl.window now (s key)
  if rl.max_requests ≤ pruned.length then
    (false, fun k => if k = key then pruned else s k)
  else
    (true, fun k => if k = key then pruned ++ [now] else s k)

/-- The rate limiter of the specification's scenario: max_requests=3,
window=60. -/
def rl3 : RateLimiter := ⟨3, 60⟩

/-- State after one admitted request from key k at time 10 under rl3. -/
def rlScen1 : RLState := (allow rl3 rlEmpty "k" 10).2

/-- State after a second admitted request at time 20. -/
def rlScen2 : RLState := (allow rl3 rlScen1 "k" 20).2

/-- State after a third admitted request at time 30. -/
def rlScen3 : RLState := (allow rl3 rlScen2 "k" 30).2

/-- State after the rejected fourth request at time 40. -/
def rlScen4 : RLState := (allow rl3 rlScen3 "k" 40).2

/-- Evaluation of the scenario state after the first request. -/
theorem rlScen1_val : rlScen1 "k" = [10] := by
  norm_num [rlScen1, allow, prune, rlEmpty, rl3, List.filter]

/-- Evaluation of the scenario state after the second request. -/
theorem rlScen2_val : rlScen2 "k" = [10, 20] := by
  norm_num [rlScen2, allow, prune, rl3, rlScen1_val, List.filter]

/-- Evaluation of the scenario state after the third request. -/
theorem rlScen3_val : rlScen3 "k" = [10, 20, 30] := by
  norm_num [rlScen3, allow, prune, rl3, rlScen2_val, List.filter]

/-- Evaluation of the scenario state after the rejected fourth request:
the pruned list is stored, nothing is appended. -/
theorem rlScen4_val : rlScen4 "k" = [10, 20, 30] := by
  norm_num [rlScen4, allow, prune, rl3, rlScen3_val, List.filter]

/-- Admitting a call changes only the caller's key. -/
theorem allow_frame (rl : RateLimiter) (s : RLState) (key : String)
    (now : ℚ) (k : String) (h : k ≠ key) :
    (allow rl s key now).2 k = s k := by
  simp only [allow]
  split <;> simp [h]

/-- The stored list after a call is the pruned list, with now appended
exactly when the call was admitted. -/
theorem allow_update (rl : RateLimiter) (s : RLState) (key : String) (now : ℚ) :
    ((allow rl s key now).1 = true →
        (allow rl s key now).2 key = prune rl.window now (s key) ++ [now]) ∧
    ((allow rl s key now).1 = false →
        (allow rl s key now).2 key = prune rl.window now (s key)) := by
  simp only [allow]
  split <;> simp

/-- Membership in the stored list after a call: an old timestamp survives
exactly when it is strictly within the window, and now is present
exactly when the call was admitted. -/
theorem allow_mem (rl : RateLimiter) (s : RLState) (key : String) (now t : ℚ) :
    t ∈ (allow rl s key now).2 key ↔
      (t ∈ s key ∧ now - t < rl.window) ∨
      ((allow rl s key now).1 = true ∧ t = now) := by
  simp only [allow]
  split <;> simp [prune, List.mem_filter]

/-- C2 counterexample: a timestamp exactly window seconds old is
discarded, not retained: with max_requests=3 and window=60, a request
at time 0 followed by one at time 60 leaves the key's stored list at
[60], whereas retaining the boundary timestamp would leave [0, 60]. -/
theorem boundary_timestamp_discarded :
    (allow rl3 ((allow rl3 rlEmpty "c" 0).2) "c" 60).2 "c" = [60] ∧
    (allow rl3 ((allow rl3 rlEmpty "c" 0).2) "c" 60).2 "c" ≠ [0, 60] := by
  have h0 : (allow rl3 rlEmpty "c" 0).2 "c" = [0] := by
    norm_num [allow, prune, rlEmpty, rl3, List.filter]
  have h1 : (allow rl3 ((allow rl3 rlEmpty "c" 0).2) "c" 60).2 "c" = [60] := by
    norm_num [allow, prune, rl3, h0, List.filter]
  refine ⟨h1, ?_⟩
  rw [h1]
  norm_num

/-- C2 amended: on each call the stored timestamps t with
now - t >= window are discarded (a timestamp exactly window seconds old
is discarded, not retained); the call admits exactly when the pruned
count is below max_requests, now is recorded exactly on admission, and
other keys are untouched; with max_requests=3 and window=60, three
requests from one key at times 10, 20, 30 are admitted, a fourth at 40
is rejected, and a request at time 200, past the window, is admitted
again. -/
theorem rate_limit_semantics (rl : RateLimiter) (s : RLState)
    (key : String) (now t : ℚ) :
    ((allow rl s key now).1 =
        decide ((prune rl.window now (s key)).length < rl.max_requests)) ∧
    ((allow rl s key now).2 key =
        if (allow rl s key now).1 then prune rl.window now (s key) ++ [now]
        else prune rl.window now (s key)) ∧
    (t ∈ prune rl.window now (s key) ↔ t ∈ s key ∧ now - t < rl.window) ∧
    (∀ k, k ≠ key → (allow rl s key now).2 k = s k) ∧
    ((allow rl3 rlEmpty "k" 10).1 = true ∧
      (allow rl3 rlScen1 "k" 20).1 = true ∧
      (allow rl3 rlScen2 "k" 30).1 = true ∧
      (allow rl3 rlScen3 "k" 40).1 = false ∧
      (allow rl3 rlScen4 "k" 200).1 = true) := by
  refine ⟨?_, ?_, ?_, ?_, ?_, ?_, ?_, ?_, ?_⟩
  · simp only [allow]
    split
    · next h => simp [Nat.not_lt.mpr h]
    · next h => simp [Nat.lt_of_not_le h]
  · rcases allow_update rl s key now with ⟨h1, h2⟩
    cases hb : (allow rl s key now).1
    · simp [h2 hb]
    · simp [h1 hb]
  · simp [prune, List.mem_filter]
  · exact fun k hk => allow_frame rl s key now k hk
  · norm_num [allow, prune, rlEmpty, rl3, List.filter]
  · norm_num [allow, prune, rl3, rlScen1_val, List.filter]
  · norm_num [allow, prune, rl3, rlScen2_val, List.filter]
  · norm_num [allow, prune, rl3, rlScen3_val, List.filter]
  · norm_num [allow, prune, rl3, rlScen4_val, List.filter]

/-- C2 witness: the frame part of rate_limit_semantics at concrete
inputs: a call for key k leaves key j untouched. -/
theorem rate_limit_semantics_witness :
    (allow rl3 rlEmpty "k" 10).2 "j" = rlEmpty "j" :=
  (rate_limit_semantics rl3 rlEmpty "k" 10 10).2.2.2.1 "j" (by decide)

/-- One call to the decorated endpoint: the client key and the arrival
time. -/
structure Call where
  key : String
  now : ℚ

/-- The rate limiter state after a sequence of calls processed in order,
starting from the empty dictionary. -/
def runCalls (rl : RateLimiter) (cs : List Call) : RLState :=
  cs.foldl (fun s c => (allow rl s c.key c.now).2) rlEmpty

/-- The arrival time of the last call with the given key in the
sequence, if any. -/
def lastCallTime (key : String) : List Call → Option ℚ
  | [] => Option.none
  | c :: cs =>
    match lastCallTime key cs with
    | Option.some t => Option.some t
    | Option.none => if c.key = key then Option.some c.now else Option.none

/-- A call preserves the per-key length bound of the requests
dictionary. -/
theorem allow_preserves_bound (rl : RateLimiter) (s : RLState) (key : String)
    (now : ℚ) (h : ∀ k, (s k).length ≤ rl.max_requests) :
    ∀ k, ((allow rl s key now).2 k).length ≤ rl.max_requests := by
  intro k
  by_cases hk : k = key
  · subst hk
    rcases allow_update rl s k now with ⟨h1, h2⟩
    cases hb : (allow rl s k now).1
    · rw [h2 hb]
      exact le_trans (List.length_filter_le _ _) (h k)
    · rw [h1 hb]
      have hlt : (prune rl.window now (s k)).length < rl.max_requests := by
        by_contra hge
        simp only [allow, if_pos (Nat.le_of_not_lt hge)] at hb
        exact Bool.false_ne_true hb
      simp only [List.length_append, List.length_cons, List.length_nil]
      omega
  · rw [allow_frame rl s key now k hk]
    exact h k

/-- Starting from the empty dictionary, every key's stored list stays at
length at most max_requests. -/
theorem runCalls_bound (rl : RateLimiter) (cs : List Call) (key : String) :
    (runCalls rl cs key).length ≤ rl.max_requests := by
  suffices hgen : ∀ (s : RLState), (∀ k, (s k).length ≤ rl.max_requests) →
      ∀ k, ((cs.foldl (fun s c => (allow rl s c.key c.now).2) s) k).length ≤
        rl.max_requests by
    exact hgen rlEmpty (fun _ => by simp [rlEmpty]) key
  induction cs with
  | nil => intro s hs k; exact hs k
  | cons c cs ih =>
    intro s hs k
    exact ih _ (allow_preserves_bound rl s c.key c.now hs) k

/-- lastCallTime over a snoc: the appended call dominates when its key
matches. -/
theorem lastCallTime_append (key : String) (cs : List Call) (c : Call) :
    lastCallTime key (cs ++ [c]) =
      if c.key = key then Option.some c.now else lastCallTime key cs := by
  induction cs with
  | nil =>
    simp [lastCallTime]
  | cons d ds ih =>
    simp only [List.cons_append, lastCallTime, List.append_eq]
    by_cases hc : c.key = key
    · rw [ih]; simp [hc]
    · rw [ih]; simp [hc]

/-- Every element stored for the caller's key right after a call is
strictly within the trailing window of that call (for a positive
window). -/
theorem allow_mem_window (rl : RateLimiter) (hw : 0 < rl.window)
    (s : RLState) (key : String) (now t : ℚ)
    (ht : t ∈ (allow rl s key now).2 key) : now - t < rl.window := by
  rcases (allow_mem rl s key now t).mp ht with ⟨_, h⟩ | ⟨_, h⟩
  · exact h
  · rw [h]; simpa using hw

/-- Relative to the last call of a key, every stored timestamp of that
key is strictly within the trailing window; keys never called store
nothing. -/
theorem runCalls_window (rl : RateLimiter) (hw : 0 < rl.window)
    (cs : List Call) (key : String) :
    (lastCallTime key cs = Option.none → runCalls rl cs key = []) ∧
    (∀ T, lastCallTime key cs = Option.some T →
      ∀ t ∈ runCalls rl cs key, T - t < rl.window) := by
  induction cs using List.reverseRecOn with
  | nil =>
    constructor
    · intro _; rfl
    · intro T hT; simp [lastCallTime] at hT
  | append_singleton cs c ih =>
    have hrun : runCalls rl (cs ++ [c]) =
        (allow rl (runCalls rl cs) c.key c.now).2 := by
      simp [runCalls, List.foldl_append]
    by_cases hc : c.key = key
    · constructor
      · intro hnone
        rw [lastCallTime_append, if_pos hc] at hnone
        exact absurd hnone (by simp)
      · intro T hT t ht
        rw [lastCallTime_append, if_pos hc] at hT
        rw [hrun, ← hc] at ht
        have := allow_mem_window rl hw (runCalls rl cs) c.key c.now t ht
        rw [Option.some.injEq] at hT
        rw [← hT]
        exact this
    · have hframe : runCalls rl (cs ++ [c]) key = runCalls rl cs key := by
        rw [hrun]
        exact allow_frame rl (runCalls rl cs) c.key c.now key
          (fun h => hc (h ▸ rfl))
      constructor
      · intro hnone
        rw [lastCallTime_append, if_neg hc] at hnone
        rw [hframe]
        exact ih.1 hnone
      · intro T hT t ht
        rw [lastCallTime_append, if_neg hc] at hT
        rw [hframe] at ht
        exact ih.2 T hT t ht

/-- C10: from the empty state, after any sequence of allow calls every
key's stored timestamp list has length at most max_requests and,
relative to the time of that key's last call, contains only timestamps
strictly within the trailing window; an admitted call appends exactly
its own timestamp to the pruned list and a rejected call appends
nothing. -/
theorem rate_limiter_invariant (rl : RateLimiter) (hw : 0 < rl.window)
    (cs : List Call) (key : String) :
    (runCalls rl cs key).length ≤ rl.max_requests ∧
    (∀ T, lastCallTime key cs = Option.some T →
      ∀ t ∈ runCalls rl cs key, T - t < rl.window) ∧
    (∀ s now, ((allow rl s key now).1 = true →
        (allow rl s key now).2 key = prune rl.window now (s key) ++ [now]) ∧
      ((allow rl s key now).1 = false →
        (allow rl s key now).2 key = prune rl.window now (s key))) :=
  ⟨runCalls_bound rl cs key, (runCalls_window rl hw cs key).2,
    fun s now => allow_update rl s key now⟩

/-- C10 witness: the invariant instantiated at the 3-per-60 limiter
after a single call. -/
theorem rate_limiter_invariant_witness :
    (0 : ℚ) < rl3.window ∧
      (runCalls rl3 [⟨"k", 10⟩] "k").length ≤ rl3.max_requests :=
  ⟨by norm_num [rl3],
    (rate_limiter_invariant rl3 (by norm_num [rl3]) [⟨"k", 10⟩] "k").1⟩

/-- A row of the locations table (the generated id is its position). -/
structure LocationRecord where
  latitude : FloatVal
  longitude : FloatVal
  timestamp : ℚ
deriving DecidableEq

/-- Database state: the locations table and the error_logs table (each
error log row is its truncated message and the endpoint string). -/
structure Store where
  locations : List LocationRecord
  errorLogs : List (List Char × String)
deriving DecidableEq

/-- A fallible error_logs insert: the store either commits the row or
raises SQLiteError (the oracle ok says which). -/
def insertErrorLogRow (ok : Bool) (row : List Char × String) (st : Store) :
    Except (List Char) Store :=
  if ok then Except.ok { st with errorLogs := st.errorLogs ++ [row] }
  else Except.error []

/-- log_error_to_db from src/app.py: truncate the message to its first
500 characters, insert it into error_logs, and catch any SQLiteError,
leaving the store as it was; the function is total, so a failing
error-log insert cannot raise into the caller. -/
def log_error_to_db (ok : Bool) (msg : List Char) (endpoint : String)
    (st : Store) : Store :=
  match insertErrorLogRow ok (msg.take 500, endpoint) st with
  | Except.ok st2 => st2
  | Except.error _ => st

/-- C6: log_error_to_db inserts the message truncated to at most its
first 500 characters, and a storage failure during the insert is
swallowed, leaving the store unchanged; the function always returns a
store, so an error-log failure cannot abort the calling request
path. -/
theorem error_log_truncates_and_swallows (ok : Bool) (msg : List Char)
    (endpoint : String) (st : Store) :
    log_error_to_db ok msg endpoint st =
      (if ok then
        { st with errorLogs := st.errorLogs ++ [(msg.take 500, endpoint)] }
      else st) ∧
    (msg.take 500).length ≤ 500 := by
  constructor
  · cases ok <;> simp [log_error_to_db, insertErrorLogRow]
  · exact List.length_take_le 500 msg

/-- ORDER BY timestamp DESC LIMIT 1 over the locations table: a stored
row of maximal timestamp (the SQL leaves the tie-break to the store;
this model keeps the earliest such row). -/
def maxByTimestamp : List LocationRecord → Option LocationRecord
  | [] => Option.none
  | r :: rs =>
    Option.some (rs.foldl (fun a b => if a.timestamp < b.timestamp then b else a) r)

/-- ORDER BY timestamp ASC LIMIT 1 over the locations table: a stored
row of minimal timestamp. -/
def minByTimestamp : List LocationRecord → Option LocationRecord
  | [] => Option.none
  | r :: rs =>
    Option.some (rs.foldl (fun a b => if b.timestamp < a.timestamp then b else a) r)

/-- The statistics object of the /statistics response. -/
structure StatsBody where
  total_locations : ℕ
  last_location : Option LocationRecord
  first_record_date : Option ℚ
deriving DecidableEq

/-- get_statistics from src/app.py, success path: the COUNT of all
locations, the last record by timestamp descending (None when the table
is empty), and the earliest record's timestamp (None when the table is
empty), under status 200. -/
def get_statistics (st : Store) : ℕ × StatsBody :=
  (200,
    { total_locations := st.locations.length
      last_location := maxByTimestamp st.locations
      first_record_date := (minByTimestamp st.locations).map LocationRecord.timestamp })

/-- The fold underlying maxByTimestamp returns a member of r :: rs whose
timestamp dominates every element of r :: rs. -/
theorem foldl_max_spec (r : LocationRecord) (rs : List LocationRecord) :
    (rs.foldl (fun a b => if a.timestamp < b.timestamp then b else a) r) ∈ r :: rs ∧
    ∀ q ∈ r :: rs,
      q.timestamp ≤
        (rs.foldl (fun a b => if a.timestamp < b.timestamp then b else a) r).timestamp := by
  induction rs generalizing r with
  | nil => simp
  | cons b bs ih =>
    rcases ih (if r.timestamp < b.timestamp then b else r) with ⟨hmem, hbound⟩
    constructor
    · simp only [List.foldl_cons]
      rcases List.mem_cons.mp hmem with h | h
      · rw [h]
        split <;> simp
      · simp [h]
    · intro q hq
      simp only [List.foldl_cons]
      rcases List.mem_cons.mp hq with h | h
      · refine le_trans ?_ (hbound _ (List.mem_cons_self _ _))
        rw [h]
        split
        · next hlt => exact le_of_lt hlt
        · exact le_refl _
      · rcases List.mem_cons.mp h with h2 | h2
        · refine le_trans ?_ (hbound _ (List.mem_cons_self _ _))
          rw [h2]
          split
          · exact le_refl _
          · next hnlt => exact le_of_not_lt hnlt
        · exact hbound q (List.mem_cons_of_mem _ h2)

/-- The fold underlying minByTimestamp returns a member of r :: rs whose
timestamp is dominated by every element of r :: rs. -/
theorem foldl_min_spec (r : LocationRecord) (rs : List LocationRecord) :
    (rs.foldl (fun a b => if b.timestamp < a.timestamp then b else a) r) ∈ r :: rs ∧
    ∀ q ∈ r :: rs,
      (rs.foldl (fun a b => if b.timestamp < a.timestamp then b else a) r).timestamp ≤
        q.timestamp := by
  induction rs generalizing r with
  | nil => simp
  | cons b bs ih =>
    rcases ih (if b.timestamp < r.timestamp then b else r) with ⟨hmem, hbound⟩
    constructor
    · simp only [List.foldl_cons]
      rcases List.mem_cons.mp hmem with h | h
      · rw [h]
        split <;> simp
      · simp [h]
    · intro q hq
      simp only [List.foldl_cons]
      rcases List.mem_cons.mp hq with h | h
      · refine le_trans (hbound _ (List.mem_cons_self _ _)) ?_
        rw [h]
        split
        · next hlt => exact le_of_lt hlt
        · exact le_refl _
      · rcases List.mem_cons.mp h with h2 | h2
        · refine le_trans (hbound _ (List.mem_cons_self _ _)) ?_
          rw [h2]
          split
          · exact le_refl _
          · next hnlt => exact le_of_not_lt hnlt
        · exact hbound q (List.mem_cons_of_mem _ h2)

/-- C7: with no stored locations, /statistics answers 200 with total 0
and null last_location and first_record_date; with records, the total
is the record count, last_location is a stored record of maximal
timestamp, and first_record_date is the minimal stored timestamp. -/
theorem statistics_contract (st : Store) :
    (st.locations = [] →
      get_statistics st = (200, ⟨0, Option.none, Option.none⟩)) ∧
    (st.locations ≠ [] →
      (get_statistics st).1 = 200 ∧
      (get_statistics st).2.total_locations = st.locations.length ∧
      (∃ r, (get_statistics st).2.last_location = Option.some r ∧
        r ∈ st.locations ∧ ∀ q ∈ st.locations, q.timestamp ≤ r.timestamp) ∧
      (∃ r, (get_statistics st).2.first_record_date = Option.some r.timestamp ∧
        r ∈ st.locations ∧ ∀ q ∈ st.locations, r.timestamp ≤ q.timestamp)) := by
  constructor
  · intro h
    simp [get_statistics, maxByTimestamp, minByTimestamp, h]
  · intro h
    obtain ⟨r, rs, hl⟩ : ∃ r rs, st.locations = r :: rs := by
      cases hcase : st.locations with
      | nil => exact absurd hcase h
      | cons a l => exact ⟨a, l, rfl⟩
    refine ⟨rfl, rfl, ?_, ?_⟩
    · rcases foldl_max_spec r rs with ⟨hmem, hbound⟩
      refine ⟨rs.foldl (fun a b => if a.timestamp < b.timestamp then b else a) r,
        ?_, ?_, ?_⟩
      · show maxByTimestamp st.locations = Option.some _
        rw [hl]; rfl
      · rw [hl]; exact hmem
      · rw [hl]; exact hbound
    · rcases foldl_min_spec r rs with ⟨hmem, hbound⟩
      refine ⟨rs.foldl (fun a b => if b.timestamp < a.timestamp then b else a) r,
        ?_, ?_, ?_⟩
      · show (minByTimestamp st.locations).map LocationRecord.timestamp = Option.some _
        rw [hl]; rfl
      · rw [hl]; exact hmem
      · rw [hl]; exact hbound

/-- C7 witness: the empty-table clause of statistics_contract at the
empty store. -/
theorem statistics_contract_witness :
    get_statistics ⟨[], []⟩ = (200, ⟨0, Option.none, Option.none⟩) :=
  (statistics_contract ⟨[], []⟩).1 rfl

/-- Body of a /health response. -/
structure HealthBody where
  status : String
  database : String
  detail : Option (List Char)
deriving DecidableEq

/-- health_check from src/app.py: run the probe query SELECT 1 (whose
cursor yields a row whenever it succeeds, so db_ok is true); on success
answer 200 healthy/connected, on SQLiteError answer 503
unhealthy/disconnected carrying the error text; no path writes to the
error_logs table. -/
def health_check (probeOk : Bool) (probeErr : List Char) (st : Store) :
    (ℕ × HealthBody) × Store :=
  if probeOk then
    ((200, ⟨"healthy", "connected", Option.none⟩), st)
  else
    ((503, ⟨"unhealthy", "disconnected", Option.some probeErr⟩), st)

/-- C9: /health answers 200 healthy/connected exactly when the probe
query succeeds and 503 unhealthy/disconnected when it fails, and the
error_logs table is never written by the health endpoint. -/
theorem health_check_contract (probeOk : Bool) (probeErr : List Char) (st : Store) :
    ((health_check probeOk probeErr st).1 =
        (200, ⟨"healthy", "connected", Option.none⟩) ↔ probeOk = true) ∧
    ((health_check probeOk probeErr st).1 =
        (503, ⟨"unhealthy", "disconnected", Option.some probeErr⟩) ↔ probeOk = false) ∧
    (health_check probeOk probeErr st).2.errorLogs = st.errorLogs := by
  cases probeOk <;> simp [health_check]

/-- Outcome of request.get_json(silent=True) followed by the truthiness
check and field extraction performed by save_location: the body is
unparsable (None), parses to a falsy value, parses to a truthy
non-mapping value (on which .get raises), or is a mapping with optional
latitude and longitude entries. -/
inductive ReqBody where
  | unparsable
  | falsy
  | nonMapping
  | mapping (latitude longitude : Option RawInput)

/-- Tags of the constant error strings appearing in save_location's JSON
error responses; none of them carries request- or error-specific
data. -/
inductive ErrMsg where
  | contentType
  | rateLimited
  | badJson
  | missingFields
  | badCoordinates
  | saveInternal
  | unexpectedInternal
deriving DecidableEq

/-- Body of a save_location response: an error message tag or the
success payload echoing the id and coordinates. -/
inductive RespBody where
  | err (m : ErrMsg)
  | saved (location_id : ℕ) (latitude longitude : FloatVal)
deriving DecidableEq

/-- A status code paired with a response body. -/
abbrev Response := ℕ × RespBody

/-- Oracle inputs for one save_location request: the server time, whether
the locations insert succeeds, the SQLiteError text when it fails, the
text of an unexpected fault on a non-mapping body, and whether the
error_logs insert succeeds. -/
structure HandlerCtx where
  now : ℚ
  insertOk : Bool
  insertErr : List Char
  attrErr : List Char
  logOk : Bool

/-- The body of save_location after its decorator gates, from
src/app.py: reject 400 on an unparsable or falsy JSON body; on a
mapping, reject 400 when latitude or longitude is absent, 400 when
validate_coordinates rejects; then insert the validated pair with the
server timestamp, answering 200 with the new row id, or catch the
SQLiteError, record it via log_error_to_db and answer a generic 500;
a .get call raising on a truthy non-mapping body is caught by the outer
handler, recorded via log_error_to_db and answered with the generic
500. -/
def save_location_body (ctx : HandlerCtx) (body : ReqBody) (st : Store) :
    Response × Store :=
  match body with
  | .unparsable => ((400, .err .badJson), st)
  | .falsy => ((400, .err .badJson), st)
  | .nonMapping =>
    ((500, .err .unexpectedInternal),
      log_error_to_db ctx.logOk ctx.attrErr "/save_location" st)
  | .mapping latitude longitude =>
    match latitude, longitude with
    | Option.none, _ => ((400, .err .missingFields), st)
    | Option.some _, Option.none => ((400, .err .missingFields), st)
    | Option.some la, Option.some lo =>
      match (validate_coordinates la lo).result with
      | Option.none => ((400, .err .badCoordinates), st)
      | Option.some (vlat, vlon) =>
        if ctx.insertOk then
          ((200, .saved (st.locations.length + 1) vlat vlon),
            { st with locations :=
                st.locations ++ [⟨vlat, vlon, ctx.now⟩] })
        else
          ((500, .err .saveInternal),
            log_error_to_db ctx.logOk ctx.insertErr "/save_location" st)

/-- An inbound HTTP request to the save_location route. -/
structure Request where
  is_json : Bool
  remote_addr : String
  body : ReqBody

/-- The whole mutable state the route touches: the rate limiter
dictionary and the database. -/
structure AppState where
  rl : RLState
  store : Store

/-- The rate limiter configuration applied to save_location in
src/app.py: max_requests=60, window=60. -/
def rl60 : RateLimiter := ⟨60, 60⟩

/-- The full save_location route: the require_json gate answers 415
before anything else runs; then the rate_limit gate prunes and checks
the client's window, answering 429 on rejection (the pruned dictionary
is kept either way); finally the handler body runs against the
store. -/
def save_location_route (ctx : HandlerCtx) (req : Request) (st : AppState) :
    Response × AppState :=
  if !req.is_json then ((415, .err .contentType), st)
  else
    let gate := allow rl60 st.rl req.remote_addr ctx.now
    if !gate.1 then ((429, .err .rateLimited), { st with rl := gate.2 })
    else
      let out := save_location_body ctx req.body st.store
      (out.1, { rl := gate.2, store := out.2 })

/-- C4: a request whose body is not declared as JSON is rejected with
415 by the content-type gate strictly before the rate-limit gate: the
application state, in particular the client's rate limiter window, is
returned unchanged. -/
theorem non_json_rejected_before_rate_limit (ctx : HandlerCtx)
    (addr : String) (b : ReqBody) (st : AppState) :
    save_location_route ctx ⟨false, addr, b⟩ st = ((415, .err .contentType), st) ∧
    (save_location_route ctx ⟨false, addr, b⟩ st).2.rl addr = st.rl addr := by
  constructor
  · rfl
  · rfl

/-- C5: whenever save_location answers 400 (unparsable or falsy body,
missing field, or coordinates rejected by the validator), the locations
table, and with it the statistics total count, is unchanged. -/
theorem response_400_preserves_locations (ctx : HandlerCtx) (req : Request)
    (st : AppState) (h : (save_location_route ctx req st).1.1 = 400) :
    (save_location_route ctx req st).2.store.locations = st.store.locations ∧
    (get_statistics (save_location_route ctx req st).2.store).2.total_locations =
      (get_statistics st.store).2.total_locations := by
  suffices hloc :
      (save_location_route ctx req st).2.store.locations = st.store.locations by
    exact ⟨hloc, by simp [get_statistics, hloc]⟩
  rcases req with ⟨hj, addr, b⟩
  cases hj
  · norm_num [save_location_route] at h
  · simp only [save_location_route, Bool.not_true, Bool.false_eq_true,
      if_false] at h ⊢
    cases hgate : (allow rl60 st.rl addr ctx.now).1
    · simp [hgate] at h
    · simp [hgate] at h ⊢
      cases b with
      | unparsable => rfl
      | falsy => rfl
      | nonMapping => simp [save_location_body] at h
      | mapping la lo =>
        cases la with
        | none => rfl
        | some a =>
          cases lo with
          | none => rfl
          | some o =>
            simp only [save_location_body] at h ⊢
            cases hv : (validate_coordinates a o).result with
            | none => simp only [hv]
            | some p =>
              obtain ⟨vlat, vlon⟩ := p
              simp only [hv] at h ⊢
              cases hins : ctx.insertOk <;> simp [hins] at h

/-- C5 witness: a request with latitude 999 is answered 400 and leaves
the locations table unchanged. -/
theorem response_400_preserves_locations_witness :
    (save_location_route ⟨0, true, [], [], true⟩
        ⟨true, "k", .mapping (Option.some (.num 999)) (Option.some (.num 0))⟩
        ⟨rlEmpty, ⟨[], []⟩⟩).2.store.locations = ([] : List LocationRecord) :=
  (response_400_preserves_locations ⟨0, true, [], [], true⟩
    ⟨true, "k", .mapping (Option.some (.num 999)) (Option.some (.num 0))⟩
    ⟨rlEmpty, ⟨[], []⟩⟩
    (by norm_num [save_location_route, allow, prune, rlEmpty, rl60,
      save_location_body, validate_coordinates, pyFloat, floatInRange])).1

/-- C8: when the locations insert raises a storage error, save_location
records the error text through log_error_to_db against the
/save_location endpoint and answers 500 with a body that is the same
fixed generic tag for any two underlying errors, so no internal detail
reaches the response. -/
theorem persist_failure_logged_and_generic (ctx ctx2 : HandlerCtx)
    (la lo : RawInput) (st : Store)
    (h1 : ctx.insertOk = false) (h2 : ctx2.insertOk = false)
    (hv : (validate_coordinates la lo).result ≠ Option.none) :
    (save_location_body ctx (.mapping (Option.some la) (Option.some lo)) st).1 =
      (500, .err .saveInternal) ∧
    (save_location_body ctx (.mapping (Option.some la) (Option.some lo)) st).2 =
      log_error_to_db ctx.logOk ctx.insertErr "/save_location" st ∧
    (save_location_body ctx (.mapping (Option.some la) (Option.some lo)) st).1 =
      (save_location_body ctx2 (.mapping (Option.some la) (Option.some lo)) st).1 := by
  cases hres : (validate_coordinates la lo).result with
  | none => exact absurd hres hv
  | some p =>
    rcases p with ⟨vlat, vlon⟩
    simp [save_location_body, hres, h1, h2]

/-- C8 witness: two distinct storage errors at the origin produce the
identical generic 500 response. -/
theorem persist_failure_logged_and_generic_witness :
    (save_location_body ⟨0, false, ['a'], [], true⟩
        (.mapping (Option.some (.num 1)) (Option.some (.num 2))) ⟨[], []⟩).1 =
      (save_location_body ⟨0, false, ['b'], [], false⟩
        (.mapping (Option.some (.num 1)) (Option.some (.num 2))) ⟨[], []⟩).1 :=
  (persist_failure_logged_and_generic ⟨0, false, ['a'], [], true⟩
    ⟨0, false, ['b'], [], false⟩ (.num 1) (.num 2) ⟨[], []⟩ rfl rfl
    (by intro hcontra
        norm_num [validate_coordinates, pyFloat, floatInRange] at hcontra
        exact Option.noConfusion hcontra)).2.2

end Geo
